import Mathlib

/-!
Shallow embedding of the lead-management backend (GreonXpert CRM): the lead
data model (src/models/Lead.js), the lead controller
(src/controllers/leadController.js), the report controller
(src/controllers/reportController.js) and the email sender
(src/utils/emailSender.js), with theorems checking the specification's
claims about them.

Modelling conventions:
* MongoDB documents are Lean structures; a collection is a `List` in
  insertion order, so `findOne` / `findById` is `List.find?`.
* JavaScript `Date` values are modelled as `Date` below: `ym` is the
  calendar month (year * 12 + month), `day` the day of month, `ms` the
  time within the day.  Comparison is lexicographic, as for real dates.
* HTTP responses are `Resp` records `{status, success, message}`; handlers
  are pure functions `state -> (Resp, state)`.
* Request bodies are records of `Option` fields: `none` is an absent JSON
  key, matching what `findByIdAndUpdate(id, body)` would `$set`.
-/

namespace CRM

/-- Calendar time: `ym` = absolute month index, `day` = day of month,
`ms` = milliseconds within the day. -/
structure Date where
  ym : Nat
  day : Nat
  ms : Nat
deriving DecidableEq, Repr

/-- Lexicographic order on dates, matching comparison of real timestamps. -/
def Date.le (a b : Date) : Bool :=
  if a.ym < b.ym then true
  else if b.ym < a.ym then false
  else if a.day < b.day then true
  else if b.day < a.day then false
  else decide (a.ms ≤ b.ms)

/-- The `setHours(23, 59, 59, 999)` end-of-day extension used by
`downloadCustomReport` on the range's end date. -/
def endOfDay (d : Date) : Date :=
  { ym := d.ym, day := d.day, ms := 86399999 }

/-- Gregorian leap-year rule, as JavaScript `Date` rolls days over. -/
def isLeapYear (y : Nat) : Bool :=
  (y % 4 == 0 && !(y % 100 == 0)) || y % 400 == 0

/-- Number of days of the month with absolute index `ym`
(`year = ym / 12`, zero-based `month = ym % 12`): what
`new Date(year, month + 1, 0)` yields as its day of month. -/
def daysInMonth (ym : Nat) : Nat :=
  let y := ym / 12
  let m := ym % 12
  if m == 1 then (if isLeapYear y then 29 else 28)
  else if m == 3 || m == 5 || m == 8 || m == 10 then 30
  else 31

/-- `new Date(year, month, 1)`: the month's first instant. -/
def startOfMonth (ym : Nat) : Date := ⟨ym, 1, 0⟩

/-- `new Date(year, month + 1, 0, 23, 59, 59)`: the month's last day at
23:59:59.000 — the milliseconds default to 0, so the final 999 ms of the
month lie after this bound. -/
def endOfMonth (ym : Nat) : Date := ⟨ym, daysInMonth ym, 86399000⟩

/-- Whether a creation time satisfies
`createdAt: {$gte: startOfMonth, $lte: endOfMonth}` for the month `ym`.
Because `endOfMonth` carries zero milliseconds, a millisecond-precision
`createdAt` in the month's final 999 ms falls outside the window. -/
def inMonthWindow (ym : Nat) (d : Date) : Bool :=
  Date.le (startOfMonth ym) d && Date.le d (endOfMonth ym)

/-- ASCII uppercase letter test, the `[A-Z]` class of the PAN regex. -/
def isUpperLetter (c : Char) : Bool :=
  decide (65 ≤ c.toNat ∧ c.toNat ≤ 90)

/-- ASCII digit test, the `[0-9]` class of the validation regexes. -/
def isDigitCh (c : Char) : Bool :=
  decide (48 ≤ c.toNat ∧ c.toNat ≤ 57)

/-- ASCII upper-casing of one character (JavaScript `toUpperCase`). -/
def upperChar (c : Char) : Char :=
  if 97 ≤ c.toNat ∧ c.toNat ≤ 122 then Char.ofNat (c.toNat - 32) else c

/-- ASCII upper-casing of a string (JavaScript `toUpperCase`, and the
`uppercase: true` transform of the `panCard` schema path). -/
def upperStr (s : String) : String :=
  String.mk (s.toList.map upperChar)

/-- The PAN format test of the controllers: regex
`[A-Z]{5}[0-9]{4}[A-Z]{1}` anchored on both sides, applied to the
upper-cased input. -/
def panFormatOk (s : String) : Bool :=
  let t := (upperStr s).toList
  decide (t.length = 10) &&
    (t.take 5).all isUpperLetter &&
    ((t.drop 5).take 4).all isDigitCh &&
    (t.drop 9).all isUpperLetter

/-- The staff-path Aadhar format test: regex `[0-9]{12}` anchored. -/
def aadhar12Ok (s : String) : Bool :=
  decide (s.toList.length = 12) && s.toList.all isDigitCh

/-- The mobile-number validator of leadSchema: regex `[0-9]{10}` anchored. -/
def mobileOk (s : String) : Bool :=
  decide (s.toList.length = 10) && s.toList.all isDigitCh

/-- A lead document without its `editHistory` array: exactly the snapshot
`{...lead.toObject()}` after `delete previousData.editHistory` in
`updateLead`.  `lid` is the Mongo `_id`; `createdAt` the
`timestamps: true` creation time. -/
structure LeadData where
  lid : Nat
  customerName : String
  mobileNumber : String
  panCard : String
  aadharNumber : String
  preferredBank : Option String
  employmentType : Option String
  monthlySalary : Option Int
  status : String
  rejectionReason : String
  rejectionNotes : Option String
  source : String
  createdBy : Nat
  createdAt : Date
deriving DecidableEq, Repr

/-- An entry of editHistorySchema: editor reference, timestamp, and the
before/after snapshots (each a lead state minus its history). -/
structure EditEntry where
  editorId : Nat
  ts : Date
  previousData : LeadData
  newData : LeadData
deriving DecidableEq, Repr

/-- A lead document of the Lead model: its data fields plus the
`editHistory` array of editHistorySchema subdocuments. -/
structure Lead where
  data : LeadData
  editHistory : List EditEntry
deriving DecidableEq, Repr

/-- A user document of the User model, as read by the controllers:
identity, name, email and the role string (`"ADMIN"` or
`"SUPER ADMIN"`). -/
structure User where
  uid : Nat
  name : String
  email : String
  role : String
deriving DecidableEq, Repr

/-- The persistent state: the leads and users collections, each in
insertion order. -/
structure DB where
  leads : List Lead
  users : List User
deriving DecidableEq, Repr

/-- `Lead.findById(id)`: the first lead with the given `_id`. -/
def findLead (ls : List Lead) (i : Nat) : Option Lead :=
  ls.find? (fun l => l.data.lid == i)

/-- `User.findById(id)`: the first user with the given `_id`. -/
def findUser (us : List User) (i : Nat) : Option User :=
  us.find? (fun u => u.uid == i)

/-- An HTTP response: status code, the `success` flag and the `message`
field of the JSON body (absent on bare data responses). -/
structure Resp where
  status : Nat
  success : Bool
  message : Option String
deriving DecidableEq, Repr

/-- The helper checkDuplicateLead of leadController.js: `Lead.findOne` over
leads whose `panCard` or `aadharNumber` equals the given values and whose
`createdAt` lies in `[startOfMonth, endOfMonth]` of `now`'s month.  The
window's end is the last day at 23:59:59.000, so a lead stored during the
month's final 999 ms is not found. -/
def checkDuplicateLead (ls : List Lead) (now : Date)
    (panCard aadharNumber : String) : Option Lead :=
  ls.find? (fun l =>
    (l.data.panCard == panCard || l.data.aadharNumber == aadharNumber) &&
    inMonthWindow now.ym l.data.createdAt)

/-- The 409 message of `createLead`, naming the duplicate's creator. -/
def conflictMessage (creator : User) : String :=
  "This lead already exists for this month. It was created by " ++
    creator.name ++ " (" ++ creator.email ++
    "). You can add this lead again next month."

/-- A `POST /api/leads` request body.  `none` models an absent JSON key;
`createdBy`, `createdByName` and `source` need no fields here because the
controller overwrites them before `Lead.create`. -/
structure CreateBody where
  customerName : Option String := none
  mobileNumber : Option String := none
  panCard : Option String := none
  aadharNumber : Option String := none
  preferredBank : Option String := none
  employmentType : Option String := none
  monthlySalary : Option Int := none
  status : Option String := none
  rejectionReason : Option String := none
  rejectionNotes : Option String := none
  editHistory : Option (List EditEntry) := none
deriving DecidableEq, Repr

/-- JavaScript truthiness of an optional string field: absent and `""` are
both falsy (`if (!panCard || !aadharNumber)`). -/
def presentStr : Option String → Bool
  | none => false
  | some s => !(s == "")

/-- The `status` enum of leadSchema. -/
def statusEnum : List String := ["New", "Follow-up", "Approved", "Rejected"]

/-- The `rejectionReason` enum of leadSchema. -/
def rejectionReasonEnum : List String :=
  ["", "CIBIL Issue", "Low Income", "Documentation Missing",
   "Not Interested", "Poor Lead", "Other"]

/-- The `employmentType` enum of leadSchema. -/
def employmentTypeEnum : List String := ["Salaried", "Self-Employed"]

/-- The `source` enum of leadSchema. -/
def sourceEnum : List String := ["Manual", "Link"]

/-- Document validation run by `Lead.create` on the manual path: required
fields (`customerName`, `mobileNumber` — `panCard` and `aadharNumber` were
already checked present by the controller), the mobile `match` regex, and
the enum validators.  Returns the stored document (with `panCard`
upper-cased by its schema path, `status` defaulted to `"New"`,
`rejectionReason` to `""`, `source` set to `"Manual"` and `createdBy` to
the authenticated user) or `none` on a ValidationError. -/
def mkLeadDoc (newId reqUserId : Nat) (now : Date) (b : CreateBody) :
    Option Lead :=
  let cn := b.customerName.getD ""
  let mob := b.mobileNumber.getD ""
  let st := b.status.getD "New"
  let rr := b.rejectionReason.getD ""
  if cn == "" then none
  else if !(mobileOk mob) then none
  else if !(statusEnum.contains st) then none
  else if !(rejectionReasonEnum.contains rr) then none
  else if !(match b.employmentType with
            | none => true
            | some e => employmentTypeEnum.contains e) then none
  else some
    { data :=
        { lid := newId
          customerName := cn
          mobileNumber := mob
          panCard := upperStr (b.panCard.getD "")
          aadharNumber := b.aadharNumber.getD ""
          preferredBank := b.preferredBank
          employmentType := b.employmentType
          monthlySalary := b.monthlySalary
          status := st
          rejectionReason := rr
          rejectionNotes := b.rejectionNotes
          source := "Manual"
          createdBy := reqUserId
          createdAt := now }
      editHistory := b.editHistory.getD [] }

/-- The createLead handler (`POST /api/leads`), step for step: presence
check of PAN and Aadhar, PAN format on the upper-cased value, 12-digit
Aadhar format, the duplicate check (409 naming the duplicate's creator;
if `populate` found no creator, reading `creator.name` raises and the
catch answers 400), the creator lookup (404 when absent), then
`Lead.create` (ValidationError caught as 400) appending the document. -/
def createLead (db : DB) (now : Date) (reqUserId : Nat) (body : CreateBody)
    (newId : Nat) : Resp × DB :=
  if !(presentStr body.panCard && presentStr body.aadharNumber) then
    (⟨400, false,
      some "Please provide both a PAN card and an Aadhar card number."⟩, db)
  else
    let pan := body.panCard.getD ""
    let aad := body.aadharNumber.getD ""
    if !(panFormatOk pan) then
      (⟨400, false, some "Invalid PAN card format."⟩, db)
    else if !(aadhar12Ok aad) then
      (⟨400, false, some "Invalid Aadhar card format."⟩, db)
    else
      match checkDuplicateLead db.leads now pan aad with
      | some dup =>
        match findUser db.users dup.data.createdBy with
        | some creator => (⟨409, false, some (conflictMessage creator)⟩, db)
        | none => (⟨400, false, some "TypeError"⟩, db)
      | none =>
        match findUser db.users reqUserId with
        | none => (⟨404, false, some "User not found"⟩, db)
        | some _ =>
          match mkLeadDoc newId reqUserId now body with
          | none => (⟨400, false, some "ValidationError"⟩, db)
          | some ld => (⟨201, true, none⟩, ⟨db.leads ++ [ld], db.users⟩)

/-- A `PUT /api/leads/:id` request body: every leadSchema path that
`findByIdAndUpdate(id, req.body)` would `$set`, `none` for an absent
key.  The raw JSON values are strings, checked against the schema
validators only when present (mongoose `runValidators` on update). -/
structure UpdateBody where
  customerName : Option String := none
  mobileNumber : Option String := none
  panCard : Option String := none
  aadharNumber : Option String := none
  preferredBank : Option String := none
  employmentType : Option String := none
  monthlySalary : Option Int := none
  status : Option String := none
  rejectionReason : Option String := none
  rejectionNotes : Option String := none
  source : Option String := none
  createdBy : Option Nat := none
  editHistory : Option (List EditEntry) := none
deriving DecidableEq, Repr

/-- Runs a validator on an updated path only when the body sets it. -/
def validStr (v : Option String) (p : String → Bool) : Bool :=
  match v with
  | none => true
  | some s => p s

/-- The leadSchema validators as run by `runValidators: true` on the paths
a `PUT` body sets: required paths may not become empty, `mobileNumber`
must match its 10-digit regex, and the enum paths must stay within their
enums.  (`panCard` and `aadharNumber` carry no format validator in the
schema, only `required`.) -/
def validateUpdate (b : UpdateBody) : Bool :=
  validStr b.customerName (fun s => !(s == "")) &&
  validStr b.mobileNumber mobileOk &&
  validStr b.panCard (fun s => !(s == "")) &&
  validStr b.aadharNumber (fun s => !(s == "")) &&
  validStr b.status (fun s => statusEnum.contains s) &&
  validStr b.rejectionReason (fun s => rejectionReasonEnum.contains s) &&
  validStr b.employmentType (fun s => employmentTypeEnum.contains s) &&
  validStr b.source (fun s => sourceEnum.contains s)

/-- The `$set` semantics of `findByIdAndUpdate(id, body)` on the data
fields: every path the body sets is overwritten (`panCard` through its
uppercase transform), every other path keeps its stored value.  The
`editHistory` path is handled separately by `updateLead`. -/
def applyBody (d : LeadData) (b : UpdateBody) : LeadData :=
  { d with
    customerName := b.customerName.getD d.customerName
    mobileNumber := b.mobileNumber.getD d.mobileNumber
    panCard := (b.panCard.map upperStr).getD d.panCard
    aadharNumber := b.aadharNumber.getD d.aadharNumber
    preferredBank :=
      match b.preferredBank with
      | none => d.preferredBank
      | some s => some s
    employmentType :=
      match b.employmentType with
      | none => d.employmentType
      | some s => some s
    monthlySalary :=
      match b.monthlySalary with
      | none => d.monthlySalary
      | some n => some n
    status := b.status.getD d.status
    rejectionReason := b.rejectionReason.getD d.rejectionReason
    rejectionNotes :=
      match b.rejectionNotes with
      | none => d.rejectionNotes
      | some s => some s
    source := b.source.getD d.source
    createdBy := b.createdBy.getD d.createdBy }

/-- Replaces the lead with the given `_id` in the collection, keeping
positions (the store updates the document in place). -/
def replaceLead (ls : List Lead) (i : Nat) (l1 : Lead) : List Lead :=
  ls.map (fun l => if l.data.lid == i then l1 else l)

/-- The updateLead handler (`PUT /api/leads/:id`): 404 when the lead is
absent; 403 unless the caller is the creator or a SUPER ADMIN; then the
history-tracking sequence — snapshot the state minus history, apply the
body through `findByIdAndUpdate` with `runValidators` (a ValidationError
is caught as 400 with nothing persisted), snapshot the new state minus
history, and push one edit-history entry onto the updated document before
saving it.  When the body itself sets `editHistory`, the
`findByIdAndUpdate` has already overwritten the array the push lands
on. -/
def updateLead (db : DB) (now : Date) (callerId : Nat) (callerRole : String)
    (leadId : Nat) (b : UpdateBody) : Resp × DB :=
  match findLead db.leads leadId with
  | none => (⟨404, false, some "Lead not found"⟩, db)
  | some lead =>
    if !(lead.data.createdBy == callerId) && !(callerRole == "SUPER ADMIN")
    then (⟨403, false, some "Not authorized to update this lead"⟩, db)
    else if !(validateUpdate b) then
      (⟨400, false, some "ValidationError"⟩, db)
    else
      let previousData := lead.data
      let newData := applyBody lead.data b
      let updated : Lead :=
        ⟨newData,
         (b.editHistory.getD lead.editHistory) ++
           [⟨callerId, now, previousData, newData⟩]⟩
      (⟨200, true, none⟩, ⟨replaceLead db.leads leadId updated, db.users⟩)

/-- The deleteLead handler (`DELETE /api/leads/:id`): 404 when absent, 403
unless creator or SUPER ADMIN, otherwise `deleteOne` removes the
document. -/
def deleteLead (db : DB) (callerId : Nat) (callerRole : String)
    (leadId : Nat) : Resp × DB :=
  match findLead db.leads leadId with
  | none => (⟨404, false, some "Lead not found"⟩, db)
  | some lead =>
    if !(lead.data.createdBy == callerId) && !(callerRole == "SUPER ADMIN")
    then (⟨403, false, some "Not authorized to delete this lead"⟩, db)
    else
      (⟨200, true, none⟩,
       ⟨db.leads.filter (fun l => !(l.data.lid == leadId)), db.users⟩)

/-- The role-based filter of getDashboardStats and getAllLeads: an empty
filter for a SUPER ADMIN, `createdBy = caller` for every other role. -/
def roleScoped (ls : List Lead) (uid : Nat) (role : String) : List Lead :=
  if role == "SUPER ADMIN" then ls
  else ls.filter (fun l => l.data.createdBy == uid)

/-- Count of leads with a given status, as the `$group` by `$status`
aggregation (zero-filled for absent statuses) reports it. -/
def countStatus (ls : List Lead) (st : String) : Nat :=
  (ls.filter (fun l => l.data.status == st)).length

/-- The dashboard statistics record of getDashboardStats.  Ratios are
rationals: `Approved / total * 100` is exact here, matching the
JavaScript arithmetic on these small integer counts.  (The trailing
30-day count of the handler is time-relative presentation and not
modelled.) -/
structure DashboardStats where
  totalLeads : Nat
  newCount : Nat
  followUpCount : Nat
  approvedCount : Nat
  rejectedCount : Nat
  approvalRatio : ℚ
  rejectionRatio : ℚ
deriving DecidableEq, Repr

/-- The getDashboardStats handler's computation (`GET /reports/dashboard`):
role-scoped lead set, per-status counts, and the two ratios — each
`count / total * 100` when `totalLeads > 0`, else `0`. -/
def getDashboardStats (db : DB) (uid : Nat) (role : String) :
    DashboardStats :=
  let ls := roleScoped db.leads uid role
  let total := ls.length
  let approved := countStatus ls "Approved"
  let rejected := countStatus ls "Rejected"
  { totalLeads := total
    newCount := countStatus ls "New"
    followUpCount := countStatus ls "Follow-up"
    approvedCount := approved
    rejectedCount := rejected
    approvalRatio :=
      if 0 < total then ((approved : ℚ) / (total : ℚ)) * 100 else 0
    rejectionRatio :=
      if 0 < total then ((rejected : ℚ) / (total : ℚ)) * 100 else 0 }

/-- The creator filter downloadCustomReport builds: an ADMIN caller is
forced to their own id; a SUPER ADMIN uses the requested `adminId` when
one is present; otherwise no creator filter. -/
def exportFilterCreator (callerId : Nat) (callerRole : String)
    (adminId : Option Nat) : Option Nat :=
  if callerRole == "ADMIN" then some callerId
  else if callerRole == "SUPER ADMIN" then adminId
  else none

/-- Whether a creation time falls in the export range: `createdAt` between
the start date and the end-of-day-extended end date, both inclusive. -/
def inRange (startD endD : Date) (d : Date) : Bool :=
  Date.le startD d && Date.le d (endOfDay endD)

/-- The lead selection of downloadCustomReport (`POST /reports/download`):
`Lead.find` with the date-range filter and the role-derived creator
filter.  The CSV/PDF rendering of the selected rows is delegated to the
formatting libraries and not part of the selection. -/
def exportLeads (db : DB) (callerId : Nat) (callerRole : String)
    (adminId : Option Nat) (startD endD : Date) : List Lead :=
  db.leads.filter (fun l =>
    inRange startD endD l.data.createdAt &&
    (match exportFilterCreator callerId callerRole adminId with
     | none => true
     | some c => l.data.createdBy == c))

/-- One row of the monthly consolidated report: an ADMIN's name, email,
prior-month lead counts and approval rate (`approved / total * 100`, `0`
when no leads; the two-decimal `toFixed` presentation is elided). -/
structure ReportRow where
  name : String
  email : String
  totalCreated : Nat
  approvedCount : Nat
  rejectedCount : Nat
  approvalRate : ℚ
deriving DecidableEq, Repr

/-- The data-gathering loop of generateAndSendMonthlyReport: one row per
ADMIN user, over that admin's leads with `createdAt` in the
`[startOfLastMonth, endOfLastMonth]` window of the report month
`reportYm` (the end again at 23:59:59.000, like the duplicate check's). -/
def monthlyReportData (db : DB) (reportYm : Nat) : List ReportRow :=
  (db.users.filter (fun u => u.role == "ADMIN")).map (fun a =>
    let ls := db.leads.filter (fun l =>
      l.data.createdBy == a.uid && inMonthWindow reportYm l.data.createdAt)
    let total := ls.length
    let approved := countStatus ls "Approved"
    let rejected := countStatus ls "Rejected"
    { name := a.name
      email := a.email
      totalCreated := total
      approvedCount := approved
      rejectedCount := rejected
      approvalRate :=
        if 0 < total then ((approved : ℚ) / (total : ℚ)) * 100 else 0 })

/-- A rendered file buffer: the workbook the ExcelJS `writeBuffer` call
produces from the report rows, or the table the PDFKit document renders
from them.  The byte layout is the rendering libraries' contract; the
information content is the rows. -/
inductive FileBuf where
  | xlsx (rows : List ReportRow)
  | pdf (rows : List ReportRow)
deriving DecidableEq, Repr

/-- An attachment entry as generateAndSendMonthlyReport builds it. -/
structure Attachment where
  filename : String
  content : FileBuf
  contentType : String
deriving DecidableEq, Repr

/-- The options object generateAndSendMonthlyReport passes to
`sendEmail`. -/
structure EmailOptions where
  email : String
  subject : String
  message : Option String
  html : Option String
  attachments : List Attachment
deriving DecidableEq, Repr

/-- The message the transport delivers: the `mailOptions` object built by
emailSender.js, which contains only `from`, `to`, `subject` and `text`
(`text: options.message`) — the `html` line is commented out and the
`attachments` key is never set, so the delivered mail carries none. -/
structure Mail where
  fromAddr : String
  toAddr : String
  subject : String
  text : Option String
  attachments : List Attachment
deriving DecidableEq, Repr

/-- The sendEmail utility's construction of the delivered message from its
options: `to`, `subject` and `text` are forwarded; `html` and
`attachments` of the options are dropped. -/
def sendEmailBuild (o : EmailOptions) : Mail :=
  { fromAddr := "EBS Cards Admin <admin@ebscards.com>"
    toAddr := o.email
    subject := o.subject
    text := o.message
    attachments := [] }

/-- The `toLocaleString` month-year label of the report, abstracted to the
month index (its exact wording carries no logic). -/
def reportMonthString (ym : Nat) : String := "Month " ++ toString ym

/-- The two attachments generateAndSendMonthlyReport builds from the
rendered buffers. -/
def monthlyAttachments (rows : List ReportRow) (ms : String) :
    List Attachment :=
  [{ filename := "Report_" ++ ms ++ ".xlsx"
     content := FileBuf.xlsx rows
     contentType :=
       "application/vnd.openxmlformats-officedocument.spreadsheetml.sheet" },
   { filename := "Report_" ++ ms ++ ".pdf"
     content := FileBuf.pdf rows
     contentType := "application/pdf" }]

/-- The outcome of one run of the monthly job: the options of every
`sendEmail` call made, the messages the transport delivered, and whether
the function-level catch fired (logging the error; the job never
propagates one). -/
structure JobRun where
  attempted : List EmailOptions
  delivered : List Mail
  errorLogged : Bool
deriving DecidableEq, Repr

/-- The options object built for one SUPER ADMIN recipient: subject and
html carry the month label, `attachments` both rendered buffers, and no
`message` field is passed. -/
def mkMonthlyOptions (rows : List ReportRow) (ms : String) (sa : User) :
    EmailOptions :=
  { email := sa.email
    subject := "EBS Cards - Monthly Report for " ++ ms
    message := none
    html := some ("<p>Please find the consolidated performance report for "
      ++ ms ++ " attached.</p>")
    attachments := monthlyAttachments rows ms }

/-- The `for (const superAdmin of superAdmins) await sendEmail(...)` loop.
`failsOn` is the transport environment: `true` means `sendMail` rejects
for that recipient address.  A rejection propagates out of the loop to
the function-level catch, so the remaining recipients are not
attempted. -/
def sendLoop (failsOn : String → Bool) (rows : List ReportRow)
    (ms : String) : List User → JobRun
  | [] => ⟨[], [], false⟩
  | sa :: rest =>
    let opts := mkMonthlyOptions rows ms sa
    if failsOn sa.email then ⟨[opts], [], true⟩
    else
      let r := sendLoop failsOn rows ms rest
      ⟨opts :: r.attempted, sendEmailBuild opts :: r.delivered,
       r.errorLogged⟩

/-- The generateAndSendMonthlyReport job: gather the prior month's rows
per ADMIN, render both buffers, then send to every SUPER ADMIN through
the loop above.  The whole body sits in one try/catch, so the job always
returns; `now.ym - 1` is the previous calendar month. -/
def generateAndSendMonthlyReport (db : DB) (now : Date)
    (failsOn : String → Bool) : JobRun :=
  let rows := monthlyReportData db (now.ym - 1)
  let ms := reportMonthString (now.ym - 1)
  let superAdmins := db.users.filter (fun u => u.role == "SUPER ADMIN")
  sendLoop failsOn rows ms superAdmins

/-- One updateLead call of a call sequence: the caller's identity and
role, the call time and the request body. -/
structure Call where
  callerId : Nat
  role : String
  ts : Date
  body : UpdateBody
deriving DecidableEq, Repr

/-- Sequential application of updateLead calls to one lead id. -/
def runUpdates (db : DB) (leadId : Nat) : List Call → DB
  | [] => db
  | c :: cs =>
    runUpdates (updateLead db c.ts c.callerId c.role leadId c.body).2
      leadId cs

/-- Whether every call of the sequence returns 200 when run in order. -/
def callsSucceed (db : DB) (leadId : Nat) : List Call → Bool
  | [] => true
  | c :: cs =>
    let r := updateLead db c.ts c.callerId c.role leadId c.body
    r.1.status == 200 && callsSucceed r.2 leadId cs

/-- The edit-history entries a sequence of successful updates should
produce: one per call, in call order, each snapshotting the state before
and after its call. -/
def traceEntries (d : LeadData) : List Call → List EditEntry
  | [] => []
  | c :: cs =>
    let d1 := applyBody d c.body
    ⟨c.callerId, c.ts, d, d1⟩ :: traceEntries d1 cs

/-- The lead data after a sequence of update bodies is applied in order. -/
def applyCallsData (d : LeadData) : List Call → LeadData
  | [] => d
  | c :: cs => applyCallsData (applyBody d c.body) cs

/-! Concrete sample data used by counterexamples and witnesses. -/

/-- A time within calendar month 500. -/
def dM0 : Date := ⟨500, 5, 1000⟩

/-- A later time in the same calendar month. -/
def dM0b : Date := ⟨500, 12, 0⟩

/-- A run time in the following month, so the monthly job reports on
month 500. -/
def dRun : Date := ⟨501, 1, 7200000⟩

/-- An ADMIN user. -/
def alice : User := ⟨1, "Alice", "alice@ebs.test", "ADMIN"⟩

/-- A second ADMIN user. -/
def bob : User := ⟨2, "Bob", "bob@ebs.test", "ADMIN"⟩

/-- A SUPER ADMIN user. -/
def sam : User := ⟨3, "Sam", "sam@ebs.test", "SUPER ADMIN"⟩

/-- A second SUPER ADMIN user. -/
def sue : User := ⟨4, "Sue", "sue@ebs.test", "SUPER ADMIN"⟩

/-- A lead created by Alice in month 500. -/
def lead1 : Lead :=
  ⟨⟨1, "Customer One", "9876543210", "ABCDE1234F", "123456789012",
    none, none, none, "New", "", none, "Manual", 1, dM0⟩, []⟩

/-- The sample store: one lead by Alice, two ADMINs, two SUPER ADMINs. -/
def db1 : DB := ⟨[lead1], [alice, bob, sam, sue]⟩

/-- A creation body whose Aadhar equals lead1's but whose PAN is
malformed. -/
def badPanBody : CreateBody :=
  { customerName := some "Customer Two", mobileNumber := some "9999999999",
    panCard := some "BAD", aadharNumber := some "123456789012" }

/-- A well-formed creation body whose PAN equals lead1's. -/
def dupPanBody : CreateBody :=
  { customerName := some "Customer Two", mobileNumber := some "9999999999",
    panCard := some "ABCDE1234F", aadharNumber := some "222233334444" }

/-- A well-formed creation body clashing with no stored lead. -/
def freshBody : CreateBody :=
  { customerName := some "Customer Three", mobileNumber := some "8888888888",
    panCard := some "FGHIJ5678K", aadharNumber := some "555566667777" }

/-- An update body that touches nothing. -/
def emptyUpdate : UpdateBody := {}

/-- An update body that reassigns `createdBy` to Bob. -/
def stealBody : UpdateBody := { createdBy := some 2 }

/-- An update body setting the status to Approved. -/
def approveBody : UpdateBody := { status := some "Approved" }

/-- An update body with a status outside the schema enum. -/
def bogusBody : UpdateBody := { status := some "Bogus" }

/-- A single valid update call by Alice. -/
def callApprove : Call := ⟨1, "ADMIN", dM0b, approveBody⟩

/-- First call of the audit counterexample: an ordinary status change. -/
def updCall1 : Call := ⟨1, "ADMIN", dM0b, { status := some "Follow-up" }⟩

/-- Second call of the audit counterexample: a body that also sets
`editHistory` to the empty array. -/
def updCall2 : Call :=
  ⟨1, "ADMIN", dM0b, { status := some "Approved", editHistory := some [] }⟩

/-- lead1 after `callApprove`: status Approved, one history entry. -/
def lead1Approved : Lead :=
  ⟨{ lead1.data with status := "Approved" },
   [⟨1, dM0b, lead1.data, { lead1.data with status := "Approved" }⟩]⟩

/-- A lead for the dashboard sample: creator 7, month 500, given status. -/
def mkLead9 (i : Nat) (st : String) : Lead :=
  ⟨⟨i, "Customer", "9876543210", "AAAAA1111A", "111122223333",
    none, none, none, st, "", none, "Manual", 7, dM0⟩, []⟩

/-- Ten leads: three Approved, two Rejected, five pending. -/
def db9 : DB :=
  ⟨[mkLead9 1 "Approved", mkLead9 2 "Approved", mkLead9 3 "Approved",
    mkLead9 4 "Rejected", mkLead9 5 "Rejected",
    mkLead9 6 "New", mkLead9 7 "New", mkLead9 8 "New",
    mkLead9 9 "Follow-up", mkLead9 10 "Follow-up"], [sam]⟩

/-- A store with no ADMIN users but one SUPER ADMIN, and no leads. -/
def db7 : DB := ⟨[], [sam]⟩

/-- A lead created by Alice in the final second of month 500 at
millisecond 500 — inside the calendar month but after the duplicate
window's 23:59:59.000 end (month 500 has 30 days). -/
def leadLastMs : Lead :=
  ⟨⟨2, "Customer Edge", "9876543211", "ABCDE1234F", "999988887777",
    none, none, none, "New", "", none, "Manual", 1,
    ⟨500, 30, 86399500⟩⟩, []⟩

/-- The store holding only the final-millisecond lead. -/
def dbEdge : DB := ⟨[leadLastMs], [alice, bob, sam, sue]⟩

/-- An attempt time later in that same final second of month 500. -/
def dMEnd : Date := ⟨500, 30, 86399600⟩

/-! Helper lemmas shared by the claim theorems. -/

/-- A string passing the PAN format test is not empty. -/
theorem panFormatOk_ne_empty {s : String} (h : panFormatOk s = true) :
    (s == "") = false := by
  cases hs : s == "" with
  | false => rfl
  | true =>
    have hs2 : s = "" := by simpa using hs
    subst hs2
    simp [panFormatOk, upperStr] at h

/-- A string passing the 12-digit Aadhar test is not empty. -/
theorem aadhar12Ok_ne_empty {s : String} (h : aadhar12Ok s = true) :
    (s == "") = false := by
  cases hs : s == "" with
  | false => rfl
  | true =>
    have hs2 : s = "" := by simpa using hs
    subst hs2
    simp [aadhar12Ok] at h

/-- A found lead carries the id it was looked up by. -/
theorem findLead_lid {ls : List Lead} {i : Nat} {l : Lead}
    (h : findLead ls i = some l) : (l.data.lid == i) = true := by
  have h2 : List.find? (fun x => x.data.lid == i) ls = some l := h
  exact List.find?_some (p := fun (x : Lead) => x.data.lid == i) h2

/-- Replacing the found lead makes the replacement the lookup result,
provided the replacement keeps the id. -/
theorem findLead_replace {ls : List Lead} {i : Nat} {l l1 : Lead}
    (h1 : (l1.data.lid == i) = true) (h : findLead ls i = some l) :
    findLead (replaceLead ls i l1) i = some l1 := by
  induction ls with
  | nil => simp [findLead] at h
  | cons a as ih =>
    cases hb : a.data.lid == i with
    | true =>
      have hr : replaceLead (a :: as) i l1 = l1 :: replaceLead as i l1 := by
        simp only [replaceLead, List.map_cons, hb, if_true]
      rw [hr]
      show List.find? (fun x => x.data.lid == i) (l1 :: replaceLead as i l1)
        = some l1
      rw [List.find?_cons_of_pos (p := fun (x : Lead) => x.data.lid == i) _ h1]
    | false =>
      have hr : replaceLead (a :: as) i l1 = a :: replaceLead as i l1 := by
        simp only [replaceLead, List.map_cons, hb]
        simp
      have hpa : ¬((fun x => x.data.lid == i) a = true) := by
        simp only [hb]
        simp
      have h3 : findLead as i = some l := by
        have h2 : List.find? (fun x => x.data.lid == i) (a :: as) = some l := h
        rwa [List.find?_cons_of_neg (p := fun (x : Lead) => x.data.lid == i) _ hpa]
          at h2
      rw [hr]
      show List.find? (fun x => x.data.lid == i) (a :: replaceLead as i l1)
        = some l1
      rw [List.find?_cons_of_neg (p := fun (x : Lead) => x.data.lid == i) _ hpa]
      exact ih h3

/-- Applying an update body never changes the document id. -/
theorem applyBody_lid (d : LeadData) (b : UpdateBody) :
    (applyBody d b).lid = d.lid := rfl

/-- Applying a body that does not set `createdBy` keeps `createdBy`. -/
theorem applyBody_createdBy {d : LeadData} {b : UpdateBody}
    (h : b.createdBy = none) : (applyBody d b).createdBy = d.createdBy := by
  simp [applyBody, h]

/-- Characterisation of a 200 updateLead call on a found lead: the new
store replaces the lead with the updated document (body applied, one
history entry pushed onto the body-determined history array). -/
theorem updateLead_200 {db : DB} {now : Date} {cid : Nat} {role : String}
    {lid : Nat} {b : UpdateBody} {lead : Lead}
    (h : findLead db.leads lid = some lead)
    (hst : (updateLead db now cid role lid b).1.status = 200) :
    (updateLead db now cid role lid b).2 =
      ⟨replaceLead db.leads lid
        ⟨applyBody lead.data b,
         (b.editHistory.getD lead.editHistory) ++
           [⟨cid, now, lead.data, applyBody lead.data b⟩]⟩,
       db.users⟩ := by
  cases ha : !(lead.data.createdBy == cid) && !(role == "SUPER ADMIN") with
  | true =>
    exfalso
    simp only [updateLead, h, ha] at hst
    simp at hst
  | false =>
    cases hv : validateUpdate b with
    | false =>
      exfalso
      simp only [updateLead, h, ha, hv] at hst
      simp at hst
    | true =>
      simp only [updateLead, h, ha, hv]
      simp

/-- An updateLead call that is not a 200 leaves the store unchanged. -/
theorem updateLead_not200 {db : DB} {now : Date} {cid : Nat}
    {role : String} {lid : Nat} {b : UpdateBody}
    (hst : ¬(updateLead db now cid role lid b).1.status = 200) :
    (updateLead db now cid role lid b).2 = db := by
  cases h : findLead db.leads lid with
  | none => simp only [updateLead, h]
  | some lead =>
    cases ha : !(lead.data.createdBy == cid) && !(role == "SUPER ADMIN") with
    | true => simp only [updateLead, h, ha]; simp
    | false =>
      cases hv : validateUpdate b with
      | false => simp only [updateLead, h, ha, hv]; simp
      | true =>
        exfalso
        apply hst
        simp only [updateLead, h, ha, hv]
        simp

/-- One updateLead call on a found lead keeps the lead findable and, when
the body does not set `createdBy`, keeps its `createdBy`. -/
theorem updateLead_createdBy_step {db : DB} {now : Date} {cid : Nat}
    {role : String} {lid : Nat} {b : UpdateBody} {lead : Lead}
    (hb : b.createdBy = none) (h : findLead db.leads lid = some lead) :
    ∃ l1, findLead (updateLead db now cid role lid b).2.leads lid = some l1
      ∧ l1.data.createdBy = lead.data.createdBy := by
  by_cases hst : (updateLead db now cid role lid b).1.status = 200
  · refine ⟨⟨applyBody lead.data b,
      (b.editHistory.getD lead.editHistory) ++
        [⟨cid, now, lead.data, applyBody lead.data b⟩]⟩, ?_, ?_⟩
    · rw [updateLead_200 h hst]
      exact findLead_replace (by simpa [applyBody_lid] using findLead_lid h) h
    · exact applyBody_createdBy hb
  · exact ⟨lead, by rw [updateLead_not200 hst]; exact h, rfl⟩

/-- The trace of a call sequence has one entry per call. -/
theorem traceEntries_length :
    ∀ (calls : List Call) (d : LeadData),
      (traceEntries d calls).length = calls.length := by
  intro calls
  induction calls with
  | nil => intro d; rfl
  | cons c cs ih =>
    intro d
    simp only [traceEntries, List.length_cons, ih]

/-- A document built by `Lead.create` from a body that does not set
`editHistory` starts with an empty history. -/
theorem mkLeadDoc_editHistory {nid uid : Nat} {now : Date} {b : CreateBody}
    {ld : Lead} (hbe : b.editHistory = none)
    (h : mkLeadDoc nid uid now b = some ld) : ld.editHistory = [] := by
  simp only [mkLeadDoc] at h
  split at h
  · exact Option.noConfusion h
  · split at h
    · exact Option.noConfusion h
    · split at h
      · exact Option.noConfusion h
      · split at h
        · exact Option.noConfusion h
        · split at h
          · exact Option.noConfusion h
          · injection h with h2
            rw [← h2]
            simp [hbe]

/-- A 201 createLead call appends exactly the document `Lead.create`
validated, and changes nothing else. -/
theorem createLead_201 {db : DB} {now : Date} {uid : Nat}
    {body : CreateBody} {nid : Nat}
    (hst : (createLead db now uid body nid).1.status = 201) :
    ∃ ld, mkLeadDoc nid uid now body = some ld ∧
      (createLead db now uid body nid).2 = ⟨db.leads ++ [ld], db.users⟩ := by
  cases hp : presentStr body.panCard && presentStr body.aadharNumber with
  | false =>
    exfalso
    simp only [createLead, hp] at hst
    simp at hst
  | true =>
    cases hpan : panFormatOk (body.panCard.getD "") with
    | false =>
      exfalso
      simp only [createLead, hp, hpan] at hst
      simp at hst
    | true =>
      cases haad : aadhar12Ok (body.aadharNumber.getD "") with
      | false =>
        exfalso
        simp only [createLead, hp, hpan, haad] at hst
        simp at hst
      | true =>
        cases hdup : checkDuplicateLead db.leads now (body.panCard.getD "")
            (body.aadharNumber.getD "") with
        | some d =>
          exfalso
          cases hcr : findUser db.users d.data.createdBy with
          | some c =>
            simp only [createLead, hp, hpan, haad, hdup, hcr] at hst
            simp at hst
          | none =>
            simp only [createLead, hp, hpan, haad, hdup, hcr] at hst
            simp at hst
        | none =>
          cases hu : findUser db.users uid with
          | none =>
            exfalso
            simp only [createLead, hp, hpan, haad, hdup, hu] at hst
            simp at hst
          | some u =>
            cases hmk : mkLeadDoc nid uid now body with
            | none =>
              exfalso
              simp only [createLead, hp, hpan, haad, hdup, hu, hmk] at hst
              simp at hst
            | some ld =>
              refine ⟨ld, rfl, ?_⟩
              simp only [createLead, hp, hpan, haad, hdup, hu, hmk]
              simp

/-- Every recipient reachable before a failure is sent the report; the
loop result lists them all. -/
theorem sendLoop_all_ok (failsOn : String → Bool) (rows : List ReportRow)
    (ms : String) :
    ∀ us : List User, (∀ u ∈ us, failsOn u.email = false) →
      sendLoop failsOn rows ms us =
        ⟨us.map (mkMonthlyOptions rows ms),
         us.map (fun u => sendEmailBuild (mkMonthlyOptions rows ms u)),
         false⟩ := by
  intro us
  induction us with
  | nil => intro _; rfl
  | cons a as ih =>
    intro h
    have ha : failsOn a.email = false := h a (List.mem_cons_self a as)
    have ih2 := ih (fun u hu => h u (List.mem_cons_of_mem a hu))
    simp only [sendLoop, ha, ih2]
    simp

/-- When the transport rejects the first failing recipient, the loop
stops there: everyone before it was attempted and delivered, the failing
one only attempted, everyone after not attempted, and the error reaches
the function-level catch. -/
theorem sendLoop_first_failure (failsOn : String → Bool)
    (rows : List ReportRow) (ms : String) (sa : User) (rest : List User) :
    ∀ pre : List User, (∀ u ∈ pre, failsOn u.email = false) →
      failsOn sa.email = true →
      sendLoop failsOn rows ms (pre ++ sa :: rest) =
        ⟨(pre ++ [sa]).map (mkMonthlyOptions rows ms),
         pre.map (fun u => sendEmailBuild (mkMonthlyOptions rows ms u)),
         true⟩ := by
  intro pre
  induction pre with
  | nil =>
    intro _ hf
    simp only [List.nil_append, sendLoop, hf]
    simp
  | cons a as ih =>
    intro h hf
    have ha : failsOn a.email = false := h a (List.mem_cons_self a as)
    have ih2 := ih (fun u hu => h u (List.mem_cons_of_mem a hu)) hf
    simp only [List.cons_append, sendLoop, ha, ih2]
    simp [ih2]

/-! Claim theorems. -/

/-- C4: an updateLead or deleteLead call by a caller who is not SUPER
ADMIN and not the lead's creator returns 403 and leaves the store
unchanged; a SUPER ADMIN caller passes the authorization check on any
existing lead (never 403; for delete the call succeeds with 200). -/
theorem C4_ownership :
    (∀ db now cid role lid b lead, findLead db.leads lid = some lead →
      (role == "SUPER ADMIN") = false →
      (lead.data.createdBy == cid) = false →
      updateLead db now cid role lid b =
        (⟨403, false, some "Not authorized to update this lead"⟩, db)) ∧
    (∀ db cid role lid lead, findLead db.leads lid = some lead →
      (role == "SUPER ADMIN") = false →
      (lead.data.createdBy == cid) = false →
      deleteLead db cid role lid =
        (⟨403, false, some "Not authorized to delete this lead"⟩, db)) ∧
    (∀ db now cid lid b lead, findLead db.leads lid = some lead →
      ¬(updateLead db now cid "SUPER ADMIN" lid b).1.status = 403) ∧
    (∀ db cid lid lead, findLead db.leads lid = some lead →
      (deleteLead db cid "SUPER ADMIN" lid).1.status = 200) := by
  refine ⟨?_, ?_, ?_, ?_⟩
  · intro db now cid role lid b lead h hrole hcid
    simp only [updateLead, h, hcid, hrole]
    simp
  · intro db cid role lid lead h hrole hcid
    simp only [deleteLead, h, hcid, hrole]
    simp
  · intro db now cid lid b lead h
    cases hv : validateUpdate b with
    | false =>
      simp only [updateLead, h, hv]
      simp
    | true =>
      simp only [updateLead, h, hv]
      simp
  · intro db cid lid lead h
    simp only [deleteLead, h]
    simp

/-- C4 witness: Bob (an ADMIN who is not the creator) is refused on
Alice's lead for both update and delete; Sam (SUPER ADMIN) passes the
authorization check on the same lead. -/
theorem C4_ownership_witness :
    updateLead db1 dM0b 2 "ADMIN" 1 emptyUpdate =
      (⟨403, false, some "Not authorized to update this lead"⟩, db1) ∧
    deleteLead db1 2 "ADMIN" 1 =
      (⟨403, false, some "Not authorized to delete this lead"⟩, db1) ∧
    ¬(updateLead db1 dM0b 3 "SUPER ADMIN" 1 emptyUpdate).1.status = 403 ∧
    (deleteLead db1 3 "SUPER ADMIN" 1).1.status = 200 :=
  ⟨C4_ownership.1 db1 dM0b 2 "ADMIN" 1 emptyUpdate lead1 (by decide)
      (by decide) (by decide),
   C4_ownership.2.1 db1 2 "ADMIN" 1 lead1 (by decide) (by decide)
      (by decide),
   C4_ownership.2.2.1 db1 dM0b 3 1 emptyUpdate lead1 (by decide),
   C4_ownership.2.2.2 db1 3 1 lead1 (by decide)⟩

/-- C10: an updateLead call whose body fails a schema validator (status
outside its enum, malformed mobile number, an emptied required path)
returns an error response (`success: false`) and leaves the store — the
lead's fields and its audit history — unchanged. -/
theorem C10_update_validation :
    ∀ db now cid role lid b lead, findLead db.leads lid = some lead →
      validateUpdate b = false →
      (updateLead db now cid role lid b).1.success = false ∧
      (updateLead db now cid role lid b).2 = db := by
  intro db now cid role lid b lead h hv
  cases ha : !(lead.data.createdBy == cid) && !(role == "SUPER ADMIN") with
  | true =>
    constructor
    · simp only [updateLead, h, ha]
      simp
    · simp only [updateLead, h, ha]
      simp
  | false =>
    constructor
    · simp only [updateLead, h, ha, hv]
      simp
    · simp only [updateLead, h, ha, hv]
      simp

/-- C10 witness: Sam updates Alice's lead with status `"Bogus"` (outside
the enum); the call reports failure and the store is unchanged. -/
theorem C10_update_validation_witness :
    (updateLead db1 dM0b 3 "SUPER ADMIN" 1 bogusBody).1.success = false ∧
    (updateLead db1 dM0b 3 "SUPER ADMIN" 1 bogusBody).2 = db1 :=
  C10_update_validation db1 dM0b 3 "SUPER ADMIN" 1 bogusBody lead1
    (by decide) (by decide)

/-- C2 counterexample: the claim says no update body can change
`createdBy`, but a single authorized updateLead call whose body sets
`createdBy` persists the new creator (Alice's lead becomes Bob's). -/
theorem C2_createdBy_counterexample :
    lead1.data.createdBy = 1 ∧
    (updateLead db1 dM0b 1 "ADMIN" 1 stealBody).1.status = 200 ∧
    (findLead (updateLead db1 dM0b 1 "ADMIN" 1 stealBody).2.leads 1).map
      (fun l => l.data.createdBy) = some 2 := by decide

/-- C2 amended: across any sequence of updateLead calls none of whose
bodies sets the `createdBy` path, the lead's `createdBy` stays equal to
the value set at creation. -/
theorem C2_createdBy_immutable :
    ∀ calls db lid lead lead9,
      (∀ c ∈ calls, c.body.createdBy = none) →
      findLead db.leads lid = some lead →
      findLead (runUpdates db lid calls).leads lid = some lead9 →
      lead9.data.createdBy = lead.data.createdBy := by
  intro calls
  induction calls with
  | nil =>
    intro db lid lead lead9 _ h1 h2
    rw [runUpdates] at h2
    rw [h1] at h2
    cases h2
    rfl
  | cons c cs ih =>
    intro db lid lead lead9 hall h1 h2
    obtain ⟨l1, hf1, hcb⟩ :=
      updateLead_createdBy_step (hall c (by simp)) h1
    have h3 : runUpdates db lid (c :: cs) =
        runUpdates (updateLead db c.ts c.callerId c.role lid c.body).2
          lid cs := rfl
    rw [h3] at h2
    have h4 := ih _ lid l1 lead9
      (fun x hx => hall x (List.mem_cons_of_mem c hx)) hf1 h2
    rw [h4, hcb]

/-- C2 witness: one ordinary status update by the creator leaves
`createdBy` untouched. -/
theorem C2_createdBy_immutable_witness :
    lead1Approved.data.createdBy = lead1.data.createdBy :=
  C2_createdBy_immutable [callApprove] db1 1 lead1 lead1Approved
    (by decide) (by decide) (by decide)

/-- C8: the custom-range export's lead selection.  An ADMIN caller's
result ignores the requested adminId entirely (two requests differing
only there coincide) and contains exactly the in-range leads the caller
created; a SUPER ADMIN with an adminId gets exactly that creator's
in-range leads, and with no adminId all in-range leads. -/
theorem C8_export_scoping :
    ∀ db cid a1 a2 s e,
      (exportLeads db cid "ADMIN" a1 s e =
        exportLeads db cid "ADMIN" a2 s e) ∧
      (exportLeads db cid "ADMIN" a1 s e =
        db.leads.filter (fun l =>
          inRange s e l.data.createdAt && l.data.createdBy == cid)) ∧
      (∀ a, exportLeads db cid "SUPER ADMIN" (some a) s e =
        db.leads.filter (fun l =>
          inRange s e l.data.createdAt && l.data.createdBy == a)) ∧
      (exportLeads db cid "SUPER ADMIN" none s e =
        db.leads.filter (fun l => inRange s e l.data.createdAt)) := by
  intro db cid a1 a2 s e
  have h1 : (("ADMIN" : String) == "ADMIN") = true := by decide
  have h2 : (("SUPER ADMIN" : String) == "ADMIN") = false := by decide
  refine ⟨?_, ?_, ?_, ?_⟩
  · simp [exportLeads, exportFilterCreator, h1]
  · simp [exportLeads, exportFilterCreator, h1]
  · intro a
    simp [exportLeads, exportFilterCreator, h2]
  · simp [exportLeads, exportFilterCreator, h2]

/-- C9: the dashboard's approval ratio is Approved/total*100 over the
role-scoped lead set and the rejection ratio Rejected/total*100, both 0
when the set is empty; on ten leads with three Approved and two Rejected
they evaluate to 30 and 20. -/
theorem C9_dashboard_ratios :
    (∀ db uid role,
      (getDashboardStats db uid role).approvalRatio =
        (if 0 < (roleScoped db.leads uid role).length
         then ((countStatus (roleScoped db.leads uid role) "Approved" : ℚ) /
           ((roleScoped db.leads uid role).length : ℚ)) * 100 else 0) ∧
      (getDashboardStats db uid role).rejectionRatio =
        (if 0 < (roleScoped db.leads uid role).length
         then ((countStatus (roleScoped db.leads uid role) "Rejected" : ℚ) /
           ((roleScoped db.leads uid role).length : ℚ)) * 100 else 0)) ∧
    (getDashboardStats db9 7 "SUPER ADMIN").totalLeads = 10 ∧
    (getDashboardStats db9 7 "SUPER ADMIN").approvedCount = 3 ∧
    (getDashboardStats db9 7 "SUPER ADMIN").rejectedCount = 2 ∧
    (getDashboardStats db9 7 "SUPER ADMIN").approvalRatio = 30 ∧
    (getDashboardStats db9 7 "SUPER ADMIN").rejectionRatio = 20 ∧
    (getDashboardStats db7 7 "ADMIN").totalLeads = 0 ∧
    (getDashboardStats db7 7 "ADMIN").approvalRatio = 0 ∧
    (getDashboardStats db7 7 "ADMIN").rejectionRatio = 0 := by
  refine ⟨fun db uid role => ⟨rfl, rfl⟩, ?_, ?_, ?_, ?_, ?_, ?_, ?_, ?_⟩
  · decide
  · decide
  · decide
  · have htot : (roleScoped db9.leads 7 "SUPER ADMIN").length = 10 := by
      decide
    have happ :
        countStatus (roleScoped db9.leads 7 "SUPER ADMIN") "Approved" = 3 :=
      by decide
    show (if 0 < (roleScoped db9.leads 7 "SUPER ADMIN").length
      then ((countStatus (roleScoped db9.leads 7 "SUPER ADMIN") "Approved"
          : ℚ) / ((roleScoped db9.leads 7 "SUPER ADMIN").length : ℚ)) * 100
      else 0) = 30
    rw [htot, happ]
    norm_num
  · have htot : (roleScoped db9.leads 7 "SUPER ADMIN").length = 10 := by
      decide
    have hrej :
        countStatus (roleScoped db9.leads 7 "SUPER ADMIN") "Rejected" = 2 :=
      by decide
    show (if 0 < (roleScoped db9.leads 7 "SUPER ADMIN").length
      then ((countStatus (roleScoped db9.leads 7 "SUPER ADMIN") "Rejected"
          : ℚ) / ((roleScoped db9.leads 7 "SUPER ADMIN").length : ℚ)) * 100
      else 0) = 20
    rw [htot, hrej]
    norm_num
  · decide
  · have htot : (roleScoped db7.leads 7 "ADMIN").length = 0 := by decide
    show (if 0 < (roleScoped db7.leads 7 "ADMIN").length
      then ((countStatus (roleScoped db7.leads 7 "ADMIN") "Approved" : ℚ) /
        ((roleScoped db7.leads 7 "ADMIN").length : ℚ)) * 100
      else 0) = 0
    rw [htot]
    norm_num
  · have htot : (roleScoped db7.leads 7 "ADMIN").length = 0 := by decide
    show (if 0 < (roleScoped db7.leads 7 "ADMIN").length
      then ((countStatus (roleScoped db7.leads 7 "ADMIN") "Rejected" : ℚ) /
        ((roleScoped db7.leads 7 "ADMIN").length : ℚ)) * 100
      else 0) = 0
    rw [htot]
    norm_num

/-- C1 counterexample: the claim as stated fails two ways.  First, when
the second attempt supplies a national-id equal to the first lead's but
a malformed PAN, format validation runs before the duplicate check and
the call returns 400, not a 409 naming the first creator.  Second, a
first lead stored in the month's final 999 ms (after the query's
23:59:59.000 `endOfMonth`) is invisible to the duplicate check, so a
well-formed same-calendar-month attempt with an equal PAN is created
with 201 and the duplicate is persisted. -/
theorem C1_duplicate_counterexample :
    lead1 ∈ db1.leads ∧
    badPanBody.aadharNumber = some lead1.data.aadharNumber ∧
    lead1.data.createdAt.ym = dM0b.ym ∧
    (createLead db1 dM0b 2 badPanBody 2).1.status = 400 ∧
    ¬(createLead db1 dM0b 2 badPanBody 2).1.status = 409 ∧
    (createLead db1 dM0b 2 badPanBody 2).2 = db1 ∧
    leadLastMs.data.createdAt.ym = dMEnd.ym ∧
    dupPanBody.panCard = some leadLastMs.data.panCard ∧
    (createLead dbEdge dMEnd 2 dupPanBody 5).1.status = 201 ∧
    (createLead dbEdge dMEnd 2 dupPanBody 5).2.leads.length = 2 := by
  decide

/-- C1 amended: when a stored lead matches the supplied PAN or
national-id and its creation time lies in the attempt month's query
window (first instant through the last day at 23:59:59.000), the
duplicate check finds one; and any createLead request passing the
presence and format validations whose duplicate check finds a lead
(with resolvable creator) is rejected with 409 naming that creator,
persisting nothing — whoever created the original. -/
theorem C1_duplicate_conflict :
    (∀ (db : DB) (now : Date) (pan aad : String) (l1 : Lead),
      l1 ∈ db.leads →
      Date.le (startOfMonth now.ym) l1.data.createdAt = true →
      Date.le l1.data.createdAt (endOfMonth now.ym) = true →
      (l1.data.panCard = pan ∨ l1.data.aadharNumber = aad) →
      (checkDuplicateLead db.leads now pan aad).isSome) ∧
    (∀ (db : DB) (now : Date) (uid : Nat) (body : CreateBody)
      (pan aad : String) (d : Lead) (creator : User) (nid : Nat),
      body.panCard = some pan → body.aadharNumber = some aad →
      panFormatOk pan = true → aadhar12Ok aad = true →
      checkDuplicateLead db.leads now pan aad = some d →
      findUser db.users d.data.createdBy = some creator →
      createLead db now uid body nid =
        (⟨409, false, some (conflictMessage creator)⟩, db)) := by
  constructor
  · intro db now pan aad l1 hmem hs he hmatch
    have hp : ((l1.data.panCard == pan || l1.data.aadharNumber == aad) &&
        inMonthWindow now.ym l1.data.createdAt) = true := by
      cases hmatch with
      | inl h => simp [h, inMonthWindow, hs, he]
      | inr h => simp [h, inMonthWindow, hs, he]
    exact List.find?_isSome.mpr ⟨l1, hmem, hp⟩
  · intro db now uid body pan aad d creator nid hpan haad hpf haf hdup hfu
    have hne1 : (pan == "") = false := panFormatOk_ne_empty hpf
    have hne2 : (aad == "") = false := aadhar12Ok_ne_empty haf
    simp only [createLead, hpan, haad, Option.getD_some, presentStr,
      hne1, hne2, hpf, haf, hdup, hfu]
    simp

/-- C1 witness: lead1 (day 5) lies inside the query window of the
same-month attempt time, so a request duplicating its PAN is refused
with the 409 message naming Alice, and the store is unchanged. -/
theorem C1_duplicate_conflict_witness :
    (checkDuplicateLead db1.leads dM0b "ABCDE1234F" "222233334444").isSome ∧
    createLead db1 dM0b 2 dupPanBody 5 =
      (⟨409, false, some (conflictMessage alice)⟩, db1) :=
  ⟨C1_duplicate_conflict.1 db1 dM0b "ABCDE1234F" "222233334444" lead1
      (by decide) (by decide) (by decide) (Or.inl (by decide)),
   C1_duplicate_conflict.2 db1 dM0b 2 dupPanBody "ABCDE1234F"
      "222233334444" lead1 alice 5 rfl rfl (by decide) (by decide)
      (by decide) (by decide)⟩

/-- C3 counterexample: two successful updates where the second body also
sets `editHistory` leave one entry, not two — `findByIdAndUpdate` applies
the body's `editHistory` before the controller pushes its entry. -/
theorem C3_audit_counterexample :
    callsSucceed db1 1 [updCall1, updCall2] = true ∧
    (findLead (runUpdates db1 1 [updCall1, updCall2]).leads 1).map
      (fun l => l.editHistory.length) = some 1 := by decide

/-- C3 amended: over update bodies that do not set the `editHistory`
path, N successful updateLead calls extend the history by exactly the N
trace entries, in call order, each snapshotting the persisted data
directly before and after its call; and a created lead (body without
`editHistory`) starts with an empty history. -/
theorem C3_audit_trail :
    (∀ calls db lid lead,
      (∀ c ∈ calls, c.body.editHistory = none) →
      findLead db.leads lid = some lead →
      callsSucceed db lid calls = true →
      findLead (runUpdates db lid calls).leads lid =
        some ⟨applyCallsData lead.data calls,
              lead.editHistory ++ traceEntries lead.data calls⟩) ∧
    (∀ (calls : List Call) (d : LeadData),
      (traceEntries d calls).length = calls.length) ∧
    (∀ db now uid body nid, body.editHistory = none →
      (createLead db now uid body nid).1.status = 201 →
      ∃ ld, (createLead db now uid body nid).2.leads = db.leads ++ [ld] ∧
        ld.editHistory = []) := by
  refine ⟨?_, traceEntries_length, ?_⟩
  · intro calls
    induction calls with
    | nil =>
      intro db lid lead hbe hf hs
      rw [runUpdates, applyCallsData, traceEntries, List.append_nil, hf]
    | cons c cs ih =>
      intro db lid lead hbe hf hs
      simp only [callsSucceed, Bool.and_eq_true, beq_iff_eq] at hs
      obtain ⟨h200, hrest⟩ := hs
      have hc : c.body.editHistory = none := hbe c (List.mem_cons_self c cs)
      have hdb2 := updateLead_200 hf h200
      rw [hc] at hdb2
      simp only [Option.getD_none] at hdb2
      have hf2 : findLead
          (updateLead db c.ts c.callerId c.role lid c.body).2.leads lid =
          some ⟨applyBody lead.data c.body,
            lead.editHistory ++
              [⟨c.callerId, c.ts, lead.data, applyBody lead.data c.body⟩]⟩ :=
        by
        rw [hdb2]
        refine findLead_replace ?_ hf
        show ((applyBody lead.data c.body).lid == lid) = true
        rw [applyBody_lid]
        exact findLead_lid hf
      have hstep := ih (updateLead db c.ts c.callerId c.role lid c.body).2
        lid
        ⟨applyBody lead.data c.body,
         lead.editHistory ++
           [⟨c.callerId, c.ts, lead.data, applyBody lead.data c.body⟩]⟩
        (fun x hx => hbe x (List.mem_cons_of_mem c hx)) hf2 hrest
      rw [show runUpdates db lid (c :: cs) =
        runUpdates (updateLead db c.ts c.callerId c.role lid c.body).2
          lid cs from rfl]
      rw [hstep]
      rw [applyCallsData, traceEntries]
      simp
  · intro db now uid body nid hbe hst
    obtain ⟨ld, hmk, hdb⟩ := createLead_201 hst
    exact ⟨ld, by rw [hdb], mkLeadDoc_editHistory hbe hmk⟩

/-- C3 witness: one successful status update on lead1 yields exactly its
one-entry trace, and a fresh creation starts with no history. -/
theorem C3_audit_trail_witness :
    findLead (runUpdates db1 1 [callApprove]).leads 1 =
      some ⟨applyCallsData lead1.data [callApprove],
            lead1.editHistory ++ traceEntries lead1.data [callApprove]⟩ ∧
    (∃ ld, (createLead db1 dM0b 2 freshBody 5).2.leads = db1.leads ++ [ld] ∧
      ld.editHistory = []) :=
  ⟨C3_audit_trail.1 [callApprove] db1 1 lead1 (by decide) (by decide)
      (by decide),
   C3_audit_trail.2.2 db1 dM0b 2 freshBody 5 rfl (by decide)⟩

/-- C5 counterexample: with two SUPER ADMIN recipients and a transport
that rejects the first, only the first is ever attempted — the loop has
no per-recipient catch, so the error aborts it and the remaining
recipient is skipped (the claim said the rest are still attempted). -/
theorem C5_failure_counterexample :
    (db1.users.filter (fun u => u.role == "SUPER ADMIN")).map
      (fun u => u.email) = ["sam@ebs.test", "sue@ebs.test"] ∧
    (generateAndSendMonthlyReport db1 dRun
      (fun e => e == "sam@ebs.test")).attempted.map (fun o => o.email) =
      ["sam@ebs.test"] ∧
    (generateAndSendMonthlyReport db1 dRun
      (fun e => e == "sam@ebs.test")).errorLogged = true := by decide

/-- C5 amended: a send failure is caught and logged only by the job's
function-level catch: the job itself completes, every recipient before
the first failing one was attempted and delivered, the failing one was
attempted, and no recipient after it is attempted. -/
theorem C5_failure_stops_loop :
    ∀ db now failsOn pre sa rest,
      db.users.filter (fun u => u.role == "SUPER ADMIN") =
        pre ++ sa :: rest →
      (∀ u ∈ pre, failsOn u.email = false) →
      failsOn sa.email = true →
      (generateAndSendMonthlyReport db now failsOn).errorLogged = true ∧
      (generateAndSendMonthlyReport db now failsOn).attempted =
        (pre ++ [sa]).map (mkMonthlyOptions
          (monthlyReportData db (now.ym - 1))
          (reportMonthString (now.ym - 1))) ∧
      (generateAndSendMonthlyReport db now failsOn).delivered.length =
        pre.length := by
  intro db now failsOn pre sa rest hsup hpre hf
  have hrun : generateAndSendMonthlyReport db now failsOn =
      ⟨(pre ++ [sa]).map (mkMonthlyOptions
          (monthlyReportData db (now.ym - 1))
          (reportMonthString (now.ym - 1))),
       pre.map (fun u => sendEmailBuild (mkMonthlyOptions
          (monthlyReportData db (now.ym - 1))
          (reportMonthString (now.ym - 1)) u)),
       true⟩ := by
    unfold generateAndSendMonthlyReport
    rw [hsup]
    exact sendLoop_first_failure failsOn _ _ sa rest pre hpre hf
  rw [hrun]
  simp

/-- C5 witness: the transport rejects Sam (the first SUPER ADMIN); the
job logs the error, has attempted exactly Sam, and delivered nothing. -/
theorem C5_failure_stops_loop_witness :
    (generateAndSendMonthlyReport db1 dRun
      (fun e => e == "sam@ebs.test")).errorLogged = true ∧
    (generateAndSendMonthlyReport db1 dRun
      (fun e => e == "sam@ebs.test")).attempted =
      ([] ++ [sam]).map (mkMonthlyOptions
        (monthlyReportData db1 (dRun.ym - 1))
        (reportMonthString (dRun.ym - 1))) ∧
    (generateAndSendMonthlyReport db1 dRun
      (fun e => e == "sam@ebs.test")).delivered.length =
      ([] : List User).length :=
  C5_failure_stops_loop db1 dRun (fun e => e == "sam@ebs.test") [] sam
    [sue] (by decide) (by simp) (by decide)

/-- C6: the controller passes both rendered buffers as attachment options
on every sendEmail call, but the email sender builds the transport
message without the attachments (or html) field, so every delivered mail
carries no attachments — shown generally for the sender and on a
concrete run with both SUPER ADMINs. -/
theorem C6_attachments_dropped :
    (∀ o : EmailOptions, (sendEmailBuild o).attachments = [] ∧
      (sendEmailBuild o).text = o.message) ∧
    (generateAndSendMonthlyReport db1 dRun (fun _ => false)).attempted.map
      (fun o => o.attachments.map (fun a => a.contentType)) =
      [["application/vnd.openxmlformats-officedocument.spreadsheetml.sheet",
        "application/pdf"],
       ["application/vnd.openxmlformats-officedocument.spreadsheetml.sheet",
        "application/pdf"]] ∧
    (generateAndSendMonthlyReport db1 dRun (fun _ => false)).delivered.map
      (fun m => m.attachments) = [[], []] :=
  ⟨fun o => ⟨rfl, rfl⟩, by decide, by decide⟩

/-- C7 counterexample: with zero ADMIN users but one SUPER ADMIN the job
still sends one (empty) report email, so it is false that no report
emails are sent to anyone. -/
theorem C7_no_admins_counterexample :
    db7.users.filter (fun u => u.role == "ADMIN") = [] ∧
    (generateAndSendMonthlyReport db7 dRun
      (fun _ => false)).delivered.length = 1 := by decide

/-- C7 amended: with zero ADMIN users (and a working transport) the job
completes without error on an empty report-data table, sending one email
per SUPER ADMIN — so it sends no emails exactly when there are also no
SUPER ADMIN users. -/
theorem C7_no_admins :
    ∀ db now, db.users.filter (fun u => u.role == "ADMIN") = [] →
      (generateAndSendMonthlyReport db now (fun _ => false)).errorLogged =
        false ∧
      monthlyReportData db (now.ym - 1) = [] ∧
      (generateAndSendMonthlyReport db now
          (fun _ => false)).delivered.length =
        (db.users.filter (fun u => u.role == "SUPER ADMIN")).length ∧
      ((generateAndSendMonthlyReport db now (fun _ => false)).delivered = []
        ↔ db.users.filter (fun u => u.role == "SUPER ADMIN") = []) := by
  intro db now hadm
  have hrows : monthlyReportData db (now.ym - 1) = [] := by
    unfold monthlyReportData
    rw [hadm]
    rfl
  have hrun : generateAndSendMonthlyReport db now (fun _ => false) =
      ⟨(db.users.filter (fun u => u.role == "SUPER ADMIN")).map
         (mkMonthlyOptions (monthlyReportData db (now.ym - 1))
           (reportMonthString (now.ym - 1))),
       (db.users.filter (fun u => u.role == "SUPER ADMIN")).map
         (fun u => sendEmailBuild (mkMonthlyOptions
           (monthlyReportData db (now.ym - 1))
           (reportMonthString (now.ym - 1)) u)),
       false⟩ := by
    unfold generateAndSendMonthlyReport
    exact sendLoop_all_ok (fun _ => false)
      (monthlyReportData db (now.ym - 1)) (reportMonthString (now.ym - 1))
      (db.users.filter (fun u => u.role == "SUPER ADMIN"))
      (fun u _ => rfl)
  refine ⟨by rw [hrun], hrows, by rw [hrun]; simp, ?_⟩
  rw [hrun]
  simp

/-- C7 witness: the amended behaviour on the concrete no-ADMIN store. -/
theorem C7_no_admins_witness :
    (generateAndSendMonthlyReport db7 dRun (fun _ => false)).errorLogged =
      false ∧
    monthlyReportData db7 (dRun.ym - 1) = [] ∧
    (generateAndSendMonthlyReport db7 dRun
        (fun _ => false)).delivered.length =
      (db7.users.filter (fun u => u.role == "SUPER ADMIN")).length ∧
    ((generateAndSendMonthlyReport db7 dRun (fun _ => false)).delivered = []
      ↔ db7.users.filter (fun u => u.role == "SUPER ADMIN") = []) :=
  C7_no_admins db7 dRun (by decide)

end CRM
